import Mathlib

/-!
Shallow embedding of the media-download skill (`core/handlers.py` and
`core/base.py`): the `ImageHandler` and `VideoHandler` execution flows,
YouTube search/download with duration filtering, the Pexels fallback path,
the ffmpeg trim step, and the `BaseHandler.run` template method.

External effects (HTTP responses, subprocess outcomes, the files written by
`yt-dlp`, the wall clock) are supplied as explicit oracle parameters; the
control flow acting on them is translated line by line from the source.
Durations are modelled as rationals (`ℚ`), paths as strings.
-/

namespace Skills

/-- Python truthiness of an optional numeric value (`None` and `0` are falsy). -/
def qTruthy : Option ℚ → Bool
  | none => false
  | some d => decide (d ≠ 0)

/-- Python truthiness of an optional string (`None` and `""` are falsy);
used for `config.get("PEXELS_API_KEY")`. -/
def keyTruthy : Option String → Bool
  | none => false
  | some s => !s.isEmpty

/-! Character-level models of the Python string operations used for file
naming (`str.replace`, `str(int)`, slicing, `str.split`).  They are written
over `List Char` so that every concrete filename evaluates inside the kernel. -/

def digitChar (d : Nat) : Char :=
  if d = 0 then ('0') else if d = 1 then ('1') else if d = 2 then ('2')
  else if d = 3 then ('3') else if d = 4 then ('4') else if d = 5 then ('5')
  else if d = 6 then ('6') else if d = 7 then ('7') else if d = 8 then ('8')
  else ('9')

def natDigitsAux : Nat → Nat → List Char
  | 0, _ => []
  | fuel + 1, n => if n = 0 then [] else natDigitsAux fuel (n / 10) ++ [digitChar (n % 10)]

/-- Decimal rendering of a natural number, as Python `str` does for the
non-negative integers appearing in filenames. -/
def natRepr (n : Nat) : String :=
  if n = 0 then ("0") else String.mk (natDigitsAux (n + 1) n)

/-- Python `s.replace(" ", "_")`. -/
def pyReplaceSpaces (s : String) : String :=
  String.mk (s.data.map (fun c => if c = (' ') then ('_') else c))

/-- Python `s[:n]`. -/
def strTake (s : String) (n : Nat) : String := String.mk (s.data.take n)

/-- Python `s.split(sep)` for a single-character separator. -/
def splitOnChar (sep : Char) : List Char → List (List Char)
  | [] => [[]]
  | c :: rest =>
    match splitOnChar sep rest with
    | [] => [[]]
    | cur :: more => if c = sep then [] :: cur :: more else (c :: cur) :: more

/-- Exceptions that can propagate out of handler code: `SkillError`
subclasses (carrying `str(e)`), or any other Python exception
(carrying its type name and message).  From `core/exceptions.py`. -/
inductive Exc where
  | skill (msg : String)
  | other (ty : String) (msg : String)
deriving DecidableEq, Repr

/-- `str(e)` as used by `BaseHandler.run` when building the error field. -/
def excStr : Exc → String
  | Exc.skill m => m
  | Exc.other _ m => m

/-- The result dict shape returned by handlers (`§6` of the spec:
`\x7bsuccess, count, files, output_dir, error, help\x7d` plus the
`error_type` / `error_details` keys added by `BaseHandler.run`).
A field holding `none` models an absent key. -/
structure ResultDict where
  success : Option Bool := none
  count : Option Nat := none
  files : Option (List String) := none
  outputDir : Option String := none
  error : Option String := none
  help : Option String := none
  errorType : Option String := none
  hasErrorDetails : Bool := false
deriving DecidableEq, Repr

/-! ### YouTube search (`VideoHandler.search_youtube`, handlers.py lines 219-275) -/

/-- The `duration` field of one JSON line as parsed (`data.get("duration", 0)`
may yield `None`, hence the option; `or 0` is applied at use sites). -/
structure YtRecord where
  id : String
  title : String
  channel : String
  duration : Option ℚ
deriving DecidableEq, Repr

/-- One line of `yt-dlp --dump-json` output: either malformed (skipped by the
`json.JSONDecodeError` handler, which also covers empty lines) or a record. -/
inductive SearchLine where
  | malformed
  | record (r : YtRecord)
deriving DecidableEq, Repr

/-- Outcome of the batch `subprocess.run` search call.  `timeout` models
`TimeoutExpired` raised by `subprocess.run` (which kills the child first);
`failure` models any other exception. -/
inductive ProcOutcome where
  | timeout
  | failure
  | exit (code : Int) (lines : List SearchLine)

/-- The dict appended for a surviving search result (handlers.py lines 256-263). -/
structure YtResult where
  url : String
  title : String
  duration : ℚ
  channel : String
  source : String
  id : String
deriving DecidableEq, Repr

def ytEntry (r : YtRecord) : YtResult :=
  { url := ("https://www.youtube.com/watch?v=") ++ r.id
    title := r.title
    duration := r.duration.getD 0
    channel := r.channel
    source := ("youtube")
    id := r.id }

/-- The duration filter guard `max_duration and video_duration > max_duration`. -/
def ytSkip (maxD : Option ℚ) (dur : ℚ) : Bool :=
  qTruthy maxD && decide (maxD.getD 0 < dur)

/-- `search_count = count * 5 if max_duration else count` (line 232). -/
def ytSearchCount (count : Nat) (maxD : Option ℚ) : Nat :=
  if qTruthy maxD then count * 5 else count

/-- The result-collection loop over stdout lines (lines 246-269): skip
malformed lines, skip filtered durations, append, and break as soon as
`len(results) >= count`. -/
def ytLoop (count : Nat) (maxD : Option ℚ) : List SearchLine → List YtResult → List YtResult
  | [], acc => acc.reverse
  | SearchLine.malformed :: rest, acc => ytLoop count maxD rest acc
  | SearchLine.record r :: rest, acc =>
    if ytSkip maxD (r.duration.getD 0) then
      ytLoop count maxD rest acc
    else if count ≤ (ytEntry r :: acc).length then (ytEntry r :: acc).reverse
    else ytLoop count maxD rest (ytEntry r :: acc)

/-- `VideoHandler.search_youtube`: returns `[]` when `yt-dlp` is missing, on a
non-zero exit code, on timeout or on any other exception; otherwise collects
filtered records from the process output. -/
def searchYoutube (ytdlpAvailable : Bool) (proc : Nat → ProcOutcome)
    (count : Nat) (maxD : Option ℚ) : List YtResult :=
  if !ytdlpAvailable then []
  else
    match proc (ytSearchCount count maxD) with
    | ProcOutcome.exit code lines => if code = 0 then ytLoop count maxD lines [] else []
    | ProcOutcome.timeout => []
    | ProcOutcome.failure => []

/-- The survivors of the duration filter, in encounter order (specification of
what `ytLoop` collects before truncation). -/
def ytSurvivors (maxD : Option ℚ) (lines : List SearchLine) : List YtResult :=
  lines.filterMap (fun l =>
    match l with
    | SearchLine.malformed => none
    | SearchLine.record r =>
      if ytSkip maxD (r.duration.getD 0) then none else some (ytEntry r))

/-! ### Trimming (`VideoHandler.trim_video`, handlers.py lines 384-413) -/

/-- Outcome of the `subprocess.run(cmd, capture_output=True, timeout=120)`
encoder call: an exit code, a `TimeoutExpired` (the child is killed by
`subprocess.run` before the exception propagates), or another exception. -/
inductive TrimOutcome where
  | exit (code : Int)
  | timeout
  | failure
deriving DecidableEq, Repr

/-- One token of the ffmpeg argument vector; numeric arguments are kept as
rationals rather than their Python string rendering. -/
inductive FfArg where
  | lit (s : String)
  | num (q : ℚ)
deriving DecidableEq, Repr

/-- `input_path.parent / input_path.name` pieces joined back into a path. -/
def filePath (dir stem suffix : String) : String :=
  dir ++ ("/") ++ stem ++ suffix

/-- `input_path.parent / f"..._trimmed..."` (line 390). -/
def trimOutputPath (dir stem suffix : String) : String :=
  dir ++ ("/") ++ stem ++ ("_trimmed") ++ suffix

/-- The ffmpeg argument vector built in lines 392-403.  `-ss` is added only
when `start and start > 0`; `-t` is added when `end` is truthy, with value
`end - (start or 0)`; `stop` embeds the Python parameter named `end`. -/
def trimCmd (inputPath outputPath : String) (start stop : Option ℚ) : List FfArg :=
  [FfArg.lit ("ffmpeg"), FfArg.lit ("-y")]
    ++ (if qTruthy start && decide (0 < start.getD 0) then
          [FfArg.lit ("-ss"), FfArg.num (start.getD 0)]
        else [])
    ++ [FfArg.lit ("-i"), FfArg.lit inputPath]
    ++ (if qTruthy stop then
          [FfArg.lit ("-t"), FfArg.num (stop.getD 0 - start.getD 0)]
        else [])
    ++ [FfArg.lit ("-c:v"), FfArg.lit ("libx264"), FfArg.lit ("-preset"),
        FfArg.lit ("fast"), FfArg.lit ("-c:a"), FfArg.lit ("aac"),
        FfArg.lit outputPath]

/-- What one `trim_video` call did: the encoder argv (empty when the encoder
was never launched), the returned path, and whether `input_path.unlink()` ran. -/
structure TrimRun where
  cmd : List FfArg
  result : String
  inputDeleted : Bool
deriving DecidableEq, Repr

/-- `VideoHandler.trim_video`.  Without ffmpeg the input is returned as is;
otherwise the encoder runs and only a zero exit code deletes the original and
returns the `_trimmed` output; every failure (non-zero exit, timeout, any
exception — all caught by the bare `except Exception`) returns the input. -/
def trimVideo (ffmpegAvailable : Bool) (outcome : TrimOutcome)
    (dir stem suffix : String) (start stop : Option ℚ) : TrimRun :=
  if !ffmpegAvailable then
    { cmd := [], result := filePath dir stem suffix, inputDeleted := false }
  else
    let inputPath := filePath dir stem suffix
    let outputPath := trimOutputPath dir stem suffix
    let cmd := trimCmd inputPath outputPath start stop
    match outcome with
    | TrimOutcome.exit code =>
      if code = 0 then { cmd := cmd, result := outputPath, inputDeleted := true }
      else { cmd := cmd, result := inputPath, inputDeleted := false }
    | TrimOutcome.timeout => { cmd := cmd, result := inputPath, inputDeleted := false }
    | TrimOutcome.failure => { cmd := cmd, result := inputPath, inputDeleted := false }

/-! ### YouTube download (`VideoHandler.download_youtube`, handlers.py lines 277-382) -/

/-- Outcome of the streaming download: the child completed within the 300s
window with some exit code, or `process.wait(timeout=300)` raised
`TimeoutExpired`. -/
inductive DlOutcome where
  | completes (code : Int)
  | exceedsTimeout
deriving DecidableEq, Repr

inductive ChildState where
  | running
  | terminated
deriving DecidableEq, Repr

/-- Python subprocess semantics for the streaming path: `Popen` followed by
`process.wait(timeout=...)` raises `TimeoutExpired` WITHOUT killing the child
(unlike `subprocess.run`, which kills it before re-raising).  The handler's
`except subprocess.TimeoutExpired` branch (lines 378-379) only logs, so on
timeout the child is left in this state. -/
def popenWaitChild : DlOutcome → ChildState
  | DlOutcome.completes _ => ChildState.terminated
  | DlOutcome.exceedsTimeout => ChildState.running

/-- Environment of one `download_youtube` call: tool availability and the
outcomes of the external world (search process, download process, what the
downloader wrote, remote metadata, encoder outcome, and the
`datetime.now().strftime("%Y%m%d_%H%M%S")` value). -/
structure YtEnv where
  ytdlpAvailable : Bool
  ffmpegAvailable : Bool
  searchProc : Nat → ProcOutcome
  dlOutcome : DlOutcome
  dlWrote : Bool
  remoteTitle : String
  remoteExt : String
  trimOutcome : TrimOutcome
  timestamp : String

/-- Stem of the file the downloader writes under the output template
`yt_\x7btimestamp\x7d_%(title).30s.%(ext)s` (line 317): `%(title).30s`
truncates the title to 30 characters. -/
def ytWrittenStem (timestamp title : String) : String :=
  ("yt_") ++ timestamp ++ ("_") ++ strTake title 30

def ytWrittenSuffix (ext : String) : String := (".") ++ ext

/-- The search performed on the query path (line 300):
`self.search_youtube(query, 1, max_duration=300)`. -/
def ytQuerySearch (env : YtEnv) : List YtResult :=
  searchYoutube env.ytdlpAvailable env.searchProc 1 (some 300)

/-- Result of one `download_youtube` call: the returned path (`None` on any
failure) and the state of the download child process (`none` when the
download subprocess was never launched). -/
structure DlRun where
  path : Option String
  child : Option ChildState
deriving DecidableEq, Repr

/-- `VideoHandler.download_youtube`.  Raises `DependencyError` when `yt-dlp`
is missing (line 294); searches when given a query and no url (taking
`results[0]["url"]`); then drives the streaming download.  On exit code 0 the
file matching the timestamped template is located (`dlWrote` tells whether the
downloader produced one) and trimmed when `duration or start or end` is truthy
and ffmpeg is available (`trim_video(f, trim_start, trim_start+trim_duration)`,
whose result is a path, hence always returned).  A non-zero exit code reaches
the `result.stderr` logging line, which raises `NameError` (`result` is
unbound there) — caught by the bare `except`, returning `None`. -/
def downloadYoutube (env : YtEnv) (url query : Option String)
    (outputDir : String) (start stop duration : Option ℚ) : Except Exc DlRun :=
  if !env.ytdlpAvailable then
    Except.error (Exc.skill ("Dependency yt-dlp is not installed"))
  else
    let url2 : Option String :=
      match url, query with
      | none, some _ =>
        match ytQuerySearch env with
        | [] => none
        | r :: _ => some r.url
      | _, _ => url
    match url2 with
    | none => Except.ok { path := none, child := none }
    | some _ =>
      let needTrim := qTruthy duration || qTruthy start || qTruthy stop
      let trimStart : ℚ := start.getD 0
      let trimDuration : Option ℚ :=
        if qTruthy duration then some (duration.getD 0)
        else if qTruthy stop then some (stop.getD 0 - trimStart)
        else none
      match env.dlOutcome with
      | DlOutcome.exceedsTimeout =>
        Except.ok { path := none, child := some (popenWaitChild DlOutcome.exceedsTimeout) }
      | DlOutcome.completes code =>
        if code = 0 then
          if env.dlWrote then
            let stem := ytWrittenStem env.timestamp env.remoteTitle
            let suffix := ytWrittenSuffix env.remoteExt
            if needTrim && env.ffmpegAvailable then
              let stop2 : Option ℚ := trimDuration.map (fun d => trimStart + d)
              let tr := trimVideo env.ffmpegAvailable env.trimOutcome
                outputDir stem suffix (some trimStart) stop2
              Except.ok { path := some tr.result, child := some ChildState.terminated }
            else
              Except.ok { path := some (filePath outputDir stem suffix),
                          child := some ChildState.terminated }
          else Except.ok { path := none, child := some ChildState.terminated }
        else Except.ok { path := none, child := some ChildState.terminated }

/-! ### Pexels video path and `VideoHandler.execute` (handlers.py lines 168-217, 415-509) -/

/-- A normalized candidate produced by `search_pexels_videos` (lines 186-193);
`source` is always the literal string `"pexels"` there, but the field is kept
because `execute` reads `video["source"]` when naming files. -/
structure PexelsVideo where
  url : String
  duration : ℚ
  width : Nat
  height : Nat
  source : String
  id : Nat
deriving DecidableEq, Repr

/-- `search_pexels_videos`: returns `[]` when the API key is falsy or
`requests` is unavailable; otherwise the normalized records the HTTP call
yielded (the HTTP/JSON interaction itself is the oracle `httpResults`; a
transport failure or non-200 status corresponds to `httpResults = []`). -/
def searchPexelsVideos (apiKey : Option String) (requestsAvailable : Bool)
    (httpResults : List PexelsVideo) : List PexelsVideo :=
  if !keyTruthy apiKey || !requestsAvailable then [] else httpResults

/-- The duration filter of `execute` (lines 480-481): applied only when
`duration` is truthy, keeping `v.get("duration", 0) <= duration * 1.5`. -/
def pexelsFiltered (duration : Option ℚ) (results : List PexelsVideo) : List PexelsVideo :=
  if qTruthy duration then
    results.filter (fun v => decide (v.duration ≤ duration.getD 0 * (3 / 2)))
  else results

/-- Filename built at line 495:
`f"\x7bquery.replace(' ', '_')\x7d_\x7bi+1\x7d_\x7bvideo['source']\x7d.mp4"`. -/
def pexelsVideoFilename (query : String) (i : Nat) (source : String) : String :=
  pyReplaceSpaces query ++ ("_") ++ natRepr (i + 1) ++ ("_") ++ source ++ (".mp4")

/-- Observable calls `VideoHandler.execute` makes, in order. -/
inductive Ev where
  | ytUrlDownload
  | ytQueryDownload
  | pexelsSearch
  | pexelsDownload (i : Nat)
deriving DecidableEq, Repr

/-- Environment of one `VideoHandler.execute` call. -/
structure VideoEnv where
  yt : YtEnv
  requestsAvailable : Bool
  apiKey : Option String
  pexelsHttp : List PexelsVideo
  dlVideoOk : Nat → Bool

/-- The filtered search results of the Pexels phase
(`results` after lines 477-481). -/
def pexelsResults (env : VideoEnv) (duration : Option ℚ) : List PexelsVideo :=
  pexelsFiltered duration
    (searchPexelsVideos env.apiKey env.requestsAvailable env.pexelsHttp)

/-- `results[:count]`, the candidates the download loop of line 494 iterates. -/
def pexelsSelected (env : VideoEnv) (count : Nat) (duration : Option ℚ) : List PexelsVideo :=
  (pexelsResults env duration).take count

/-- The `downloaded` list accumulated in lines 493-500: the path for each
selected candidate whose `download_video` call succeeded. -/
def pexelsDownloaded (env : VideoEnv) (q : String) (count : Nat) (duration : Option ℚ)
    (outputDir : String) : List String :=
  (pexelsSelected env count duration).enum.filterMap (fun p =>
    if env.requestsAvailable && env.dlVideoOk p.1 then
      some (outputDir ++ ("/") ++ pexelsVideoFilename q p.1 p.2.source)
    else none)

/-- The Pexels tail of `execute`'s query branch (lines 476-507): search,
filter by duration, report the missing-key help on an empty result, otherwise
download each of the first `count` candidates (`download_video` returns `None`
without `requests` or on any HTTP failure — oracle `dlVideoOk`) and return
`success=True` with whatever succeeded. -/
def pexelsPhase (env : VideoEnv) (q : String) (count : Nat) (duration : Option ℚ)
    (outputDir : String) (evs : List Ev) : Except Exc (ResultDict × List Ev) :=
  if (pexelsResults env duration).isEmpty then
    if !keyTruthy env.apiKey then
      Except.ok ({ success := some false,
                   error := some ("Download failed. YouTube network issue and PEXELS_API_KEY not configured"),
                   help := some ("Please retry or configure PEXELS_API_KEY") },
                 evs ++ [Ev.pexelsSearch])
    else
      Except.ok ({ success := some false, error := some ("No videos found") },
                 evs ++ [Ev.pexelsSearch])
  else
    Except.ok ({ success := some true,
                 count := some (pexelsDownloaded env q count duration outputDir).length,
                 files := some (pexelsDownloaded env q count duration outputDir),
                 outputDir := some outputDir },
               evs ++ [Ev.pexelsSearch]
                 ++ (pexelsSelected env count duration).enum.map
                      (fun p => Ev.pexelsDownload p.1))

/-- `VideoHandler.execute`: explicit-url branch, then the query branch
(YouTube first when `youtube_search` and `yt-dlp` are available, falling
through to the Pexels phase when it yields no path), else the no-arguments
error.  The second component records the external calls made. -/
def videoExecute (env : VideoEnv) (query url : Option String) (count : Nat)
    (duration : Option ℚ) (outputDir : String) (start stop : Option ℚ)
    (youtubeSearch : Bool) : Except Exc (ResultDict × List Ev) :=
  match url with
  | some u =>
    match downloadYoutube env.yt (some u) none outputDir start stop duration with
    | Except.error e => Except.error e
    | Except.ok dl =>
      match dl.path with
      | some p =>
        Except.ok ({ success := some true, count := some 1, files := some [p],
                     outputDir := some outputDir }, [Ev.ytUrlDownload])
      | none =>
        Except.ok ({ success := some false, error := some ("YouTube download failed") },
                   [Ev.ytUrlDownload])
  | none =>
    match query with
    | some q =>
      if youtubeSearch && env.yt.ytdlpAvailable then
        match downloadYoutube env.yt none (some q) outputDir start stop duration with
        | Except.error e => Except.error e
        | Except.ok dl =>
          match dl.path with
          | some p =>
            Except.ok ({ success := some true, count := some 1, files := some [p],
                         outputDir := some outputDir }, [Ev.ytQueryDownload])
          | none => pexelsPhase env q count duration outputDir [Ev.ytQueryDownload]
      else pexelsPhase env q count duration outputDir []
    | none =>
      Except.ok ({ success := some false,
                   error := some ("Please provide search keyword or YouTube URL") }, [])

/-! ### `ImageHandler` (handlers.py lines 28-134) -/

/-- A candidate from `search_pexels` (lines 63-72). -/
structure ImageCandidate where
  url : String
  original : String
  photographer : String
  source : String
  id : Nat
deriving DecidableEq, Repr

/-- `ImageHandler.search_pexels`: `[]` when the key is falsy, else the
normalized HTTP results (oracle). -/
def searchPexels (apiKey : Option String) (httpResults : List ImageCandidate) :
    List ImageCandidate :=
  if !keyTruthy apiKey then [] else httpResults

/-- `img["url"].split(".")[-1].split("?")[0][:4]`. -/
def imageExtRaw (url : String) : String :=
  String.mk (((splitOnChar ('?')
    ((splitOnChar ('.') url.data).getLastD url.data)).headD []).take 4)

/-- Extension extraction of lines 119-121:
`img["url"].split(".")[-1].split("?")[0][:4]`, replaced by `"jpg"` when not a
known image extension. -/
def imageExt (url : String) : String :=
  if imageExtRaw url ∈ [("jpg" : String), ("jpeg"), ("png"), ("gif"), ("webp")] then
    imageExtRaw url
  else ("jpg")

/-- Filename built at line 122. -/
def imageFilename (query : String) (i : Nat) (img : ImageCandidate) : String :=
  pyReplaceSpaces query ++ ("_") ++ natRepr (i + 1) ++ ("_") ++ img.source
    ++ (".") ++ imageExt img.url

/-- Environment of one `ImageHandler.execute` call; `pexelsHttp` is what the
`search_pexels(query, count * 2)` HTTP call would yield, `dlOk i` whether the
download of the i-th selected candidate succeeds. -/
structure ImageEnv where
  requestsAvailable : Bool
  apiKey : Option String
  pexelsHttp : List ImageCandidate
  dlOk : Nat → Bool

/-- The `downloaded` list of lines 116-127. -/
def imageDownloaded (env : ImageEnv) (query : String) (count : Nat)
    (outputDir : String) : List String :=
  ((searchPexels env.apiKey env.pexelsHttp).take count).enum.filterMap (fun p =>
    if env.dlOk p.1 then
      some (outputDir ++ ("/") ++ imageFilename query p.1 p.2)
    else none)

/-- `ImageHandler.execute`: raises `DependencyError` without `requests`
(line 100); searches `count * 2` candidates; on an empty result distinguishes
a missing key (help hint) from nothing found; otherwise downloads the first
`count` candidates and returns `success=True` with whatever succeeded. -/
def imageExecute (env : ImageEnv) (query : String) (count : Nat)
    (outputDir : String) : Except Exc ResultDict :=
  if !env.requestsAvailable then
    Except.error (Exc.skill ("Dependency requests is not installed"))
  else if (searchPexels env.apiKey env.pexelsHttp).isEmpty then
    if !keyTruthy env.apiKey then
      Except.ok { success := some false, error := some ("PEXELS_API_KEY required"),
                  help := some ("Please run: export PEXELS_API_KEY=your_key") }
    else Except.ok { success := some false, error := some ("No images found") }
  else
    Except.ok { success := some true,
                count := some (imageDownloaded env query count outputDir).length,
                files := some (imageDownloaded env query count outputDir),
                outputDir := some outputDir }

/-! ### `BaseHandler.run` (base.py lines 153-191) -/

/-- Result dict built by the `except SkillError` branch (error plus
`error_details`) and the `except Exception` branch (error plus `error_type`). -/
def excToResult : Exc → ResultDict
  | Exc.skill m =>
    { success := some false, error := some m, hasErrorDetails := true }
  | Exc.other ty m =>
    { success := some false, error := some m, errorType := some ty }

/-- The three overridable stages as seen by `run`: each either returns or
raises. -/
structure RunBehavior where
  pre : Except Exc Bool
  exec : Except Exc ResultDict
  post : ResultDict → Except Exc ResultDict

/-- `BaseHandler.run`: the template method.  A falsy `pre_execute` yields the
fixed failure dict; any exception from any stage is caught by the
`except SkillError` / `except Exception` pair and converted. -/
def runHandler (b : RunBehavior) : ResultDict :=
  match b.pre with
  | Except.error e => excToResult e
  | Except.ok false =>
    { success := some false, error := some ("Pre-execution check failed") }
  | Except.ok true =>
    match b.exec with
    | Except.error e => excToResult e
    | Except.ok r =>
      match b.post r with
      | Except.error e => excToResult e
      | Except.ok r2 => r2

/-! ### Concrete sample environments used to evaluate the model -/

/-- A short (42s) search hit, well under the 300s ceiling. -/
def ytRecShort : YtRecord :=
  { id := ("abc123"), title := ("surf clip"), channel := ("ch"), duration := some 42 }

/-- A 10s search hit, used against a zero threshold. -/
def ytRecTen : YtRecord :=
  { id := ("v1"), title := ("long clip"), channel := ("c"), duration := some 10 }

/-- A 3s search hit. -/
def ytRecThree : YtRecord :=
  { id := ("v3"), title := ("tiny clip"), channel := ("c"), duration := some 3 }

/-- Baseline environment: every tool present, search finds `ytRecShort`, the
download completes with exit code 0 and writes its file. -/
def ytEnvBase : YtEnv :=
  { ytdlpAvailable := true
    ffmpegAvailable := true
    searchProc := fun _ => ProcOutcome.exit 0 [SearchLine.record ytRecShort]
    dlOutcome := DlOutcome.completes 0
    dlWrote := true
    remoteTitle := ("surf clip")
    remoteExt := ("mp4")
    trimOutcome := TrimOutcome.exit 0
    timestamp := ("20250101_120000") }

/-- Baseline where the streaming download exceeds its 300s timeout. -/
def ytEnvDlTimeout : YtEnv := { ytEnvBase with dlOutcome := DlOutcome.exceedsTimeout }

/-- Baseline where the YouTube search itself times out (so the query path
yields nothing). -/
def ytEnvSearchTimeout : YtEnv := { ytEnvBase with searchProc := fun _ => ProcOutcome.timeout }

/-- One Pexels video candidate. -/
def pvSample : PexelsVideo :=
  { url := ("https://cdn.example/v.mp4"), duration := 12, width := 640,
    height := 360, source := ("pexels"), id := 7 }

/-- Video environment in which the YouTube tool is absent, the Pexels search
succeeds, but every individual `download_video` call fails. -/
def videoEnvAllDlFail : VideoEnv :=
  { yt := { ytEnvBase with ytdlpAvailable := false }
    requestsAvailable := true
    apiKey := some ("key")
    pexelsHttp := [pvSample]
    dlVideoOk := fun _ => false }

/-- Video environment where YouTube search times out and the Pexels fallback
succeeds. -/
def videoEnvFallback : VideoEnv :=
  { yt := ytEnvSearchTimeout
    requestsAvailable := true
    apiKey := some ("key")
    pexelsHttp := [pvSample]
    dlVideoOk := fun _ => true }

/-- Two runs of the same request differing only in the wall-clock timestamp. -/
def videoEnvRunA : VideoEnv :=
  { yt := ytEnvBase
    requestsAvailable := true
    apiKey := some ("key")
    pexelsHttp := [pvSample]
    dlVideoOk := fun _ => true }

def videoEnvRunB : VideoEnv :=
  { videoEnvRunA with yt := { ytEnvBase with timestamp := ("20250101_120001") } }

/-- `env` with only the wall-clock timestamp replaced. -/
def setTimestamp (env : VideoEnv) (t : String) : VideoEnv :=
  { env with yt := { env.yt with timestamp := t } }

/-- Image environment with a configured key, one candidate, failing downloads. -/
def imgSample : ImageCandidate :=
  { url := ("https://cdn.example/p.jpeg?w=3"), original := ("https://cdn.example/p.jpeg"),
    photographer := ("ann"), source := ("pexels"), id := 3 }

def imageEnvNoKey : ImageEnv :=
  { requestsAvailable := true, apiKey := none, pexelsHttp := [], dlOk := fun _ => true }

def imageEnvKeyEmpty : ImageEnv :=
  { requestsAvailable := true, apiKey := some ("key"), pexelsHttp := [], dlOk := fun _ => true }

/-- Video environment with a key but an empty Pexels catalog. -/
def videoEnvNoKey : VideoEnv :=
  { yt := { ytEnvBase with ytdlpAvailable := false }
    requestsAvailable := true
    apiKey := none
    pexelsHttp := []
    dlVideoOk := fun _ => true }

def ytProcTen : Nat → ProcOutcome := fun _ => ProcOutcome.exit 0 [SearchLine.record ytRecTen]

def ytProcThree : Nat → ProcOutcome := fun _ => ProcOutcome.exit 0 [SearchLine.record ytRecThree]

/-- A concrete `RunBehavior` whose `execute` raises a `ValueError`. -/
def behaviorRaises : RunBehavior :=
  { pre := Except.ok true
    exec := Except.error (Exc.other ("ValueError") ("boom"))
    post := fun r => Except.ok r }

/-- The calls recorded by an `execute` run (empty when it raised). -/
def traceOf (x : Except Exc (ResultDict × List Ev)) : List Ev :=
  match x with
  | Except.ok r => r.2
  | Except.error _ => []

/-! ## Helper lemmas -/

theorem excToResult_success_isSome (e : Exc) : (excToResult e).success.isSome = true := by
  cases e <;> rfl

theorem ytLoop_duration_le (count : Nat) (d : ℚ) (hd : d ≠ 0) :
    ∀ (lines : List SearchLine) (acc : List YtResult),
      (∀ x ∈ acc, x.duration ≤ d) →
      ∀ x ∈ ytLoop count (some d) lines acc, x.duration ≤ d := by
  have hq : qTruthy (some d) = true := by simp [qTruthy, hd]
  intro lines
  induction lines with
  | nil =>
    intro acc hacc x hx
    simp only [ytLoop, List.mem_reverse] at hx
    exact hacc x hx
  | cons l rest ih =>
    intro acc hacc x hx
    cases l with
    | malformed => exact ih acc hacc x hx
    | record r =>
      simp only [ytLoop] at hx
      by_cases hskip : ytSkip (some d) (r.duration.getD 0) = true
      · rw [if_pos hskip] at hx
        exact ih acc hacc x hx
      · rw [if_neg hskip] at hx
        have hdur : (ytEntry r).duration ≤ d := by
          have hnl : ¬ d < r.duration.getD 0 := by
            intro hlt
            exact hskip (by simp [ytSkip, hq, hlt])
          simpa [ytEntry] using le_of_not_lt hnl
        have hacc2 : ∀ y ∈ ytEntry r :: acc, y.duration ≤ d := by
          intro y hy
          rcases List.mem_cons.mp hy with h1 | h2
          · rw [h1]; exact hdur
          · exact hacc y h2
        by_cases hlen : count ≤ (ytEntry r :: acc).length
        · rw [if_pos hlen, List.mem_reverse] at hx
          exact hacc2 x hx
        · rw [if_neg hlen] at hx
          exact ih (ytEntry r :: acc) hacc2 x hx

theorem ytLoop_take (count : Nat) (maxD : Option ℚ) :
    ∀ (lines : List SearchLine) (acc : List YtResult), acc.length < count →
      ytLoop count maxD lines acc
        = acc.reverse ++ (ytSurvivors maxD lines).take (count - acc.length) := by
  intro lines
  induction lines with
  | nil => intro acc _; simp [ytLoop, ytSurvivors]
  | cons l rest ih =>
    intro acc h
    cases l with
    | malformed =>
      have : ytSurvivors maxD (SearchLine.malformed :: rest) = ytSurvivors maxD rest := by
        simp [ytSurvivors]
      rw [this]
      exact ih acc h
    | record r =>
      by_cases hskip : ytSkip maxD (r.duration.getD 0) = true
      · have hsurv : ytSurvivors maxD (SearchLine.record r :: rest) = ytSurvivors maxD rest := by
          simp [ytSurvivors, hskip]
        simp only [ytLoop, if_pos hskip]
        rw [hsurv]
        exact ih acc h
      · have hsurv : ytSurvivors maxD (SearchLine.record r :: rest)
            = ytEntry r :: ytSurvivors maxD rest := by
          simp [ytSurvivors, hskip]
        simp only [ytLoop, if_neg hskip]
        by_cases hlen : count ≤ (ytEntry r :: acc).length
        · rw [if_pos hlen, hsurv]
          have hc : count - acc.length = 1 := by
            simp only [List.length_cons] at hlen
            omega
          rw [hc]
          simp
        · rw [if_neg hlen, hsurv]
          have hlt : (ytEntry r :: acc).length < count := by
            simp only [List.length_cons] at hlen ⊢
            omega
          rw [ih _ hlt]
          have hc : count - acc.length = (count - (ytEntry r :: acc).length) + 1 := by
            simp only [List.length_cons]
            omega
          rw [hc, List.take_succ_cons]
          simp

/-! ## Claim theorems -/

/-- Claim C3 (code bug): a trim request with `start=10, end=5` is not rejected;
`trim_video` builds the encoder command with the negative duration `-5` and
launches it (on a zero exit it even deletes the original input). No
`ValidationError` is raised anywhere in `trim_video`. -/
theorem trim_negative_duration_reaches_encoder :
    trimVideo true (TrimOutcome.exit 0) ("out") ("v") (".mp4") (some 10) (some 5)
      = { cmd := [FfArg.lit ("ffmpeg"), FfArg.lit ("-y"), FfArg.lit ("-ss"), FfArg.num 10,
                  FfArg.lit ("-i"), FfArg.lit ("out/v.mp4"), FfArg.lit ("-t"), FfArg.num (-5),
                  FfArg.lit ("-c:v"), FfArg.lit ("libx264"), FfArg.lit ("-preset"),
                  FfArg.lit ("fast"), FfArg.lit ("-c:a"), FfArg.lit ("aac"),
                  FfArg.lit ("out/v_trimmed.mp4")],
          result := ("out/v_trimmed.mp4"), inputDeleted := true } := by
  norm_num [trimVideo, trimCmd, filePath, trimOutputPath, qTruthy]
  exact ⟨rfl, rfl⟩

/-- Claim C2 (code bug): when the streaming download exceeds its 300s window,
`process.wait(timeout=300)` raises `TimeoutExpired`, the handler only logs and
returns `None`, and — because `Popen.wait` does not kill the child, unlike
`subprocess.run` — the `yt-dlp` child process is left running. -/
theorem download_timeout_child_left_running :
    downloadYoutube ytEnvDlTimeout none (some ("storm")) ("out") none none none
      = Except.ok { path := none, child := some ChildState.running } := by rfl

/-- Claim C4: `trim_video` deletes the original and returns the `_trimmed`
output exactly when ffmpeg is available and the encoder exits 0; on every
failure (non-zero exit, timeout, exception) the input is not deleted and is
itself returned — the call never fails the request. -/
theorem trim_failure_preserves_input :
    ∀ (avail : Bool) (outcome : TrimOutcome) (dir stem sfx : String) (start stop : Option ℚ),
      ((trimVideo avail outcome dir stem sfx start stop).inputDeleted = true
        ↔ (avail = true ∧ outcome = TrimOutcome.exit 0))
      ∧ (trimVideo avail outcome dir stem sfx start stop).result =
          (if avail = true ∧ outcome = TrimOutcome.exit 0 then trimOutputPath dir stem sfx
           else filePath dir stem sfx) := by
  intro avail outcome dir stem sfx start stop
  cases avail with
  | false => cases outcome <;> simp [trimVideo]
  | true =>
    cases outcome with
    | timeout => simp [trimVideo]
    | failure => simp [trimVideo]
    | exit code =>
      by_cases hc : code = 0
      · subst hc; simp [trimVideo]
      · simp [trimVideo, hc]

theorem trim_failure_preserves_input_witness :
    (trimVideo true (TrimOutcome.exit 0) ("out") ("v") (".mp4") none none).inputDeleted = true :=
  (trim_failure_preserves_input true (TrimOutcome.exit 0) ("out") ("v") (".mp4") none none).1.mpr
    ⟨rfl, rfl⟩

/-- Claim C5 (counterexample): with `max_duration = 0` the guard
`max_duration and duration > max_duration` is falsy (Python truthiness), so
`search_youtube` returns a 10-second candidate even though `10 > 0`. -/
theorem zero_threshold_filter_bypassed :
    searchYoutube true ytProcTen 1 (some 0) = [ytEntry ytRecTen]
      ∧ (0 : ℚ) < (ytEntry ytRecTen).duration := by decide

/-- Claim C5 (amended: for every non-zero threshold `d`): every result of
`search_youtube` with `max_duration = d` has duration at most `d`, and every
candidate surviving the Pexels duration filter (hence every candidate the
download loop iterates, the first `count` of them) has duration at most
`d * 1.5`. -/
theorem duration_filter_sound :
    (∀ (avail : Bool) (proc : Nat → ProcOutcome) (count : Nat) (d : ℚ), d ≠ 0 →
      ∀ x ∈ searchYoutube avail proc count (some d), x.duration ≤ d)
    ∧ (∀ (d : ℚ) (results : List PexelsVideo) (count : Nat), d ≠ 0 →
      ∀ v ∈ (pexelsFiltered (some d) results).take count, v.duration ≤ d * (3 / 2)) := by
  constructor
  · intro avail proc count d hd x hx
    unfold searchYoutube at hx
    split at hx
    · simp at hx
    · split at hx
      · split at hx
        · exact ytLoop_duration_le count d hd _ [] (by simp) x hx
        · simp at hx
      · simp at hx
      · simp at hx
  · intro d results count hd v hv
    have hv2 : v ∈ pexelsFiltered (some d) results := List.take_subset count _ hv
    have hq : qTruthy (some d) = true := by simp [qTruthy, hd]
    unfold pexelsFiltered at hv2
    rw [hq, if_pos rfl] at hv2
    have := (List.mem_filter.mp hv2).2
    simpa using this

theorem duration_filter_sound_witness :
    (ytEntry ytRecThree).duration ≤ (5 : ℚ) :=
  duration_filter_sound.1 true ytProcThree 1 5 (by decide) (ytEntry ytRecThree) (by decide)

/-- Claim C8 (counterexample): with `count = 0` the loop appends the first
surviving candidate and only then checks `len(results) >= count`, so
`search_youtube` returns one result, not "at most count". -/
theorem zero_count_returns_one_result :
    ¬ (searchYoutube true ytProcThree 0 (some 5)).length ≤ 0 := by decide

/-- Claim C8 (amended: for desired count at least 1): with a non-zero
`max_duration`, `search_youtube` asks the subprocess for `count * 5`
candidates and returns the first `count` survivors of the duration filter in
encounter order; the query download path (`download_youtube` without a url)
performs exactly this search with `count = 1` and the default 300s ceiling. -/
theorem restricted_search_takes_first_count :
    (∀ (proc : Nat → ProcOutcome) (count : Nat) (d : ℚ) (lines : List SearchLine),
      d ≠ 0 → 1 ≤ count → proc (count * 5) = ProcOutcome.exit 0 lines →
      searchYoutube true proc count (some d) = (ytSurvivors (some d) lines).take count)
    ∧ (∀ (env : YtEnv) (lines : List SearchLine),
      env.ytdlpAvailable = true → env.searchProc 5 = ProcOutcome.exit 0 lines →
      ytQuerySearch env = (ytSurvivors (some 300) lines).take 1) := by
  have main : ∀ (proc : Nat → ProcOutcome) (count : Nat) (d : ℚ) (lines : List SearchLine),
      d ≠ 0 → 1 ≤ count → proc (count * 5) = ProcOutcome.exit 0 lines →
      searchYoutube true proc count (some d) = (ytSurvivors (some d) lines).take count := by
    intro proc count d lines hd hc hproc
    have hq : qTruthy (some d) = true := by simp [qTruthy, hd]
    have hsc : ytSearchCount count (some d) = count * 5 := by simp [ytSearchCount, hq]
    unfold searchYoutube
    rw [hsc, hproc]
    simp only [Bool.not_true, Bool.false_eq_true, if_false, if_pos rfl]
    rw [ytLoop_take count (some d) lines [] (by simpa using hc)]
    simp
  refine ⟨main, ?_⟩
  intro env lines havail hproc
  unfold ytQuerySearch
  rw [havail]
  exact main env.searchProc 1 300 lines (by norm_num) le_rfl (by simpa using hproc)

theorem restricted_search_takes_first_count_witness :
    searchYoutube true ytProcThree 1 (some 5)
      = (ytSurvivors (some 5) [SearchLine.record ytRecThree]).take 1 :=
  restricted_search_takes_first_count.1 ytProcThree 1 5 [SearchLine.record ytRecThree]
    (by decide) le_rfl rfl

/-- Every successful `pexelsPhase` result has its error and help keys unset. -/
theorem pexelsPhase_ok_success_clean {env : VideoEnv} {q : String} {count : Nat}
    {dur : Option ℚ} {od : String} {evs : List Ev} {r : ResultDict × List Ev}
    (h : pexelsPhase env q count dur od evs = Except.ok r)
    (hs : r.1.success = some true) : r.1.error = none ∧ r.1.help = none := by
  unfold pexelsPhase at h
  split at h
  · split at h
    · cases h; simp at hs
    · cases h; simp at hs
  · cases h; exact ⟨rfl, rfl⟩

/-- Claim C1 (counterexample): with one Pexels candidate and every individual
`download_video` call failing, `VideoHandler.execute` returns
`success=True` together with an empty `files` list. -/
theorem success_with_empty_files :
    (videoExecute videoEnvAllDlFail (some ("cat")) none 3 none ("out") none none true).map
        (fun r => (r.1.success, r.1.files))
      = Except.ok (some true, some ([] : List String)) := by rfl

/-- Claim C1 (amended): in every result either handler's `execute` returns,
`success=True` implies the `error` and `help` keys are unset; the `files`
list, however, may be empty when every individual download fails. -/
theorem success_implies_error_unset :
    (∀ (env : VideoEnv) (q url : Option String) (count : Nat) (dur : Option ℚ)
        (od : String) (s e : Option ℚ) (ys : Bool) (r : ResultDict × List Ev),
      videoExecute env q url count dur od s e ys = Except.ok r →
      r.1.success = some true → r.1.error = none ∧ r.1.help = none)
    ∧ (∀ (env : ImageEnv) (q : String) (count : Nat) (od : String) (r : ResultDict),
      imageExecute env q count od = Except.ok r →
      r.success = some true → r.error = none ∧ r.help = none) := by
  constructor
  · intro env q url count dur od s e ys r h hs
    unfold videoExecute at h
    split at h
    · split at h
      · cases h
      · split at h
        · cases h; exact ⟨rfl, rfl⟩
        · cases h; simp at hs
    · split at h
      · split at h
        · split at h
          · cases h
          · split at h
            · cases h; exact ⟨rfl, rfl⟩
            · exact pexelsPhase_ok_success_clean h hs
        · exact pexelsPhase_ok_success_clean h hs
      · cases h; simp at hs
  · intro env q count od r h hs
    unfold imageExecute at h
    split at h
    · cases h
    · split at h
      · split at h
        · cases h; simp at hs
        · cases h; simp at hs
      · cases h; exact ⟨rfl, rfl⟩

theorem success_implies_error_unset_witness :
    (({ success := some true, count := some 1, files := some [("out/cat_1_pexels.mp4")],
        outputDir := some ("out") } : ResultDict).error = none)
      ∧ (({ success := some true, count := some 1, files := some [("out/cat_1_pexels.mp4")],
            outputDir := some ("out") } : ResultDict).help = none) :=
  success_implies_error_unset.1 videoEnvFallback (some ("cat")) none 3 none ("out") none none
    true
    ({ success := some true, count := some 1, files := some [("out/cat_1_pexels.mp4")],
       outputDir := some ("out") },
     [Ev.ytQueryDownload, Ev.pexelsSearch, Ev.pexelsDownload 0])
    (by rfl) (by rfl)

/-- Claim C9: when the search yields no surviving candidates, both handlers
return `success=False`, and the result carries a `help` key exactly when the
API key is not configured (the missing-key hint); with a key configured the
error is the plain "nothing found" message with no help key. -/
theorem no_results_help_iff_key_missing :
    (∀ (env : VideoEnv) (q : String) (count : Nat) (dur : Option ℚ) (od : String)
        (evs : List Ev) (r : ResultDict × List Ev),
      (pexelsResults env dur).isEmpty = true →
      pexelsPhase env q count dur od evs = Except.ok r →
      r.1.success = some false ∧ r.1.help.isSome = !keyTruthy env.apiKey)
    ∧ (∀ (env : ImageEnv) (q : String) (count : Nat) (od : String) (r : ResultDict),
      (searchPexels env.apiKey env.pexelsHttp).isEmpty = true →
      imageExecute env q count od = Except.ok r →
      r.success = some false ∧ r.help.isSome = !keyTruthy env.apiKey) := by
  constructor
  · intro env q count dur od evs r hempty h
    unfold pexelsPhase at h
    rw [hempty, if_pos rfl] at h
    by_cases hk : keyTruthy env.apiKey = true
    · simp only [hk, Bool.not_true, Bool.false_eq_true, if_false] at h
      cases h
      simp [hk]
    · rw [Bool.not_eq_true] at hk
      simp only [hk, Bool.not_false, if_pos rfl] at h
      cases h
      simp [hk]
  · intro env q count od r hempty h
    unfold imageExecute at h
    rw [hempty] at h
    by_cases hr : (!env.requestsAvailable) = true
    · rw [if_pos hr] at h
      cases h
    · rw [if_neg hr, if_pos rfl] at h
      by_cases hk : keyTruthy env.apiKey = true
      · simp only [hk, Bool.not_true, Bool.false_eq_true, if_false] at h
        cases h
        simp [hk]
      · rw [Bool.not_eq_true] at hk
        simp only [hk, Bool.not_false, if_pos rfl] at h
        cases h
        simp [hk]

theorem no_results_help_iff_key_missing_witness :
    (({ success := some false,
        error := some ("Download failed. YouTube network issue and PEXELS_API_KEY not configured"),
        help := some ("Please retry or configure PEXELS_API_KEY") } : ResultDict).success
          = some false
      ∧ ({ success := some false,
           error := some ("Download failed. YouTube network issue and PEXELS_API_KEY not configured"),
           help := some ("Please retry or configure PEXELS_API_KEY") } : ResultDict).help.isSome
          = !keyTruthy videoEnvNoKey.apiKey)
    ∧ (({ success := some false, error := some ("No images found") } : ResultDict).success
          = some false
      ∧ ({ success := some false, error := some ("No images found") } : ResultDict).help.isSome
          = !keyTruthy imageEnvKeyEmpty.apiKey) :=
  ⟨no_results_help_iff_key_missing.1 videoEnvNoKey ("cat") 3 none ("out") []
      ({ success := some false,
         error := some ("Download failed. YouTube network issue and PEXELS_API_KEY not configured"),
         help := some ("Please retry or configure PEXELS_API_KEY") }, [Ev.pexelsSearch])
      (by rfl) (by rfl),
   no_results_help_iff_key_missing.2 imageEnvKeyEmpty ("cat") 5 ("out")
      { success := some false, error := some ("No images found") } (by rfl) (by rfl)⟩

/-- `pexelsPhase` never raises, and its trace always records the Pexels
search. -/
theorem pexelsPhase_search_in_trace (env : VideoEnv) (q : String) (count : Nat)
    (dur : Option ℚ) (od : String) (evs : List Ev) :
    (pexelsPhase env q count dur od evs).isOk = true
      ∧ Ev.pexelsSearch ∈ traceOf (pexelsPhase env q count dur od evs) := by
  unfold pexelsPhase
  split
  · split
    · exact ⟨rfl, by simp [traceOf]⟩
    · exact ⟨rfl, by simp [traceOf]⟩
  · exact ⟨rfl, by simp [traceOf]⟩

/-- Claim C6: with a query, `youtube_search=True` and `yt-dlp` available, if
`download_youtube` yields no path, `execute` still returns a result (it does
not raise) and its trace records the Pexels search — the secondary path is
attempted before any failure is reported. -/
theorem pexels_fallback_attempted :
    ∀ (env : VideoEnv) (q : String) (count : Nat) (dur : Option ℚ) (od : String)
      (s e : Option ℚ) (dl : DlRun),
      env.yt.ytdlpAvailable = true →
      downloadYoutube env.yt none (some q) od s e dur = Except.ok dl →
      dl.path = none →
      (videoExecute env (some q) none count dur od s e true).isOk = true
        ∧ Ev.pexelsSearch ∈ traceOf (videoExecute env (some q) none count dur od s e true) := by
  intro env q count dur od s e dl havail hdl hpath
  unfold videoExecute
  rw [havail]
  simp only [Bool.and_self, if_pos rfl, hdl, hpath]
  exact pexelsPhase_search_in_trace env q count dur od [Ev.ytQueryDownload]

theorem pexels_fallback_attempted_witness :
    (videoExecute videoEnvFallback (some ("cat")) none 3 none ("out") none none true).isOk = true
      ∧ Ev.pexelsSearch
          ∈ traceOf (videoExecute videoEnvFallback (some ("cat")) none 3 none ("out") none none true) :=
  pexels_fallback_attempted videoEnvFallback ("cat") 3 none ("out") none none
    { path := none, child := none } rfl (by rfl) rfl

/-- Claim C7 (counterexample): two runs of `execute` over identical queries,
counts and candidate catalogs, differing only in the wall-clock timestamp,
give the YouTube-path download different filenames (the timestamp is embedded
in the output template). -/
theorem youtube_filename_depends_on_timestamp :
    videoEnvRunB = setTimestamp videoEnvRunA ("20250101_120001")
      ∧ (videoExecute videoEnvRunA (some ("cat")) none 3 none ("out") none none true).toOption.map
            (fun r => r.1.files)
        ≠ (videoExecute videoEnvRunB (some ("cat")) none 3 none ("out") none none true).toOption.map
            (fun r => r.1.files) := by
  exact ⟨rfl, by decide⟩

/-- `pexelsPhase` reads nothing that `setTimestamp` changes. -/
theorem pexelsPhase_timestamp_irrelevant (env : VideoEnv) (t : String) (q : String)
    (count : Nat) (dur : Option ℚ) (od : String) (evs : List Ev) :
    pexelsPhase (setTimestamp env t) q count dur od evs = pexelsPhase env q count dur od evs :=
  rfl

/-- Claim C7 (amended): the Pexels-path filenames are deterministic functions
of (query, index, source): when the YouTube path yields no file in either run,
two runs of `execute` differing only in the wall-clock timestamp return
identical results — only the YouTube path embeds the timestamp in its names. -/
theorem pexels_filenames_timestamp_independent :
    ∀ (env : VideoEnv) (t1 t2 : String) (q : String) (count : Nat) (dur : Option ℚ)
      (od : String) (s e : Option ℚ) (ys : Bool) (dl1 dl2 : DlRun),
      downloadYoutube (setTimestamp env t1).yt none (some q) od s e dur = Except.ok dl1 →
      dl1.path = none →
      downloadYoutube (setTimestamp env t2).yt none (some q) od s e dur = Except.ok dl2 →
      dl2.path = none →
      videoExecute (setTimestamp env t1) (some q) none count dur od s e ys
        = videoExecute (setTimestamp env t2) (some q) none count dur od s e ys := by
  intro env t1 t2 q count dur od s e ys dl1 dl2 h1 hp1 h2 hp2
  cases hg : (ys && env.yt.ytdlpAvailable) with
  | true =>
    have hg1 : (ys && (setTimestamp env t1).yt.ytdlpAvailable) = true := hg
    have hg2 : (ys && (setTimestamp env t2).yt.ytdlpAvailable) = true := hg
    simp only [videoExecute, hg1, hg2, eq_self_iff_true, if_true, h1, h2, hp1, hp2]
    rw [pexelsPhase_timestamp_irrelevant, pexelsPhase_timestamp_irrelevant]
  | false =>
    have hg1 : (ys && (setTimestamp env t1).yt.ytdlpAvailable) = false := hg
    have hg2 : (ys && (setTimestamp env t2).yt.ytdlpAvailable) = false := hg
    simp only [videoExecute, hg1, hg2, Bool.false_eq_true, if_false]
    rw [pexelsPhase_timestamp_irrelevant, pexelsPhase_timestamp_irrelevant]

theorem pexels_filenames_timestamp_independent_witness :
    videoExecute (setTimestamp videoEnvFallback ("20250101_120000")) (some ("cat")) none 3 none
        ("out") none none true
      = videoExecute (setTimestamp videoEnvFallback ("20250101_120001")) (some ("cat")) none 3
          none ("out") none none true :=
  pexels_filenames_timestamp_independent videoEnvFallback ("20250101_120000")
    ("20250101_120001") ("cat") 3 none ("out") none none true
    { path := none, child := none } { path := none, child := none }
    (by rfl) rfl (by rfl) rfl

/-- Claim C10: `BaseHandler.run` is total over exceptions: whatever any stage
does, the returned dict has a `success` key (given that normally returned
results carry one, as both handlers' `execute` results do); an exception
raised by `pre_execute`, `execute` or `post_execute` is converted into the
caught-exception dict, which has `success=False` and the error message set. -/
theorem run_total_over_exceptions :
    ∀ b : RunBehavior,
      (∀ r, b.exec = Except.ok r → r.success.isSome = true) →
      (∀ r r2, b.exec = Except.ok r → b.post r = Except.ok r2 → r2.success.isSome = true) →
      (runHandler b).success.isSome = true
      ∧ (∀ e, b.pre = Except.error e → runHandler b = excToResult e)
      ∧ (∀ e, b.pre = Except.ok true → b.exec = Except.error e → runHandler b = excToResult e)
      ∧ (∀ e r, b.pre = Except.ok true → b.exec = Except.ok r → b.post r = Except.error e →
          runHandler b = excToResult e)
      ∧ (∀ e, (excToResult e).success = some false ∧ (excToResult e).error = some (excStr e)) := by
  intro b hexec hpost
  obtain ⟨pre, exec, post⟩ := b
  refine ⟨?_, ?_, ?_, ?_, ?_⟩
  · cases pre with
    | error e => exact excToResult_success_isSome e
    | ok flag =>
      cases flag with
      | false => rfl
      | true =>
        cases hex : exec with
        | error e => exact excToResult_success_isSome e
        | ok r =>
          show (match post r with
            | Except.error e2 => excToResult e2
            | Except.ok r2 => r2).success.isSome = true
          cases hps : post r with
          | error e2 => exact excToResult_success_isSome e2
          | ok r2 => exact hpost r r2 hex hps
  · intro e hpre
    subst hpre
    rfl
  · intro e hpre hex
    subst hpre
    subst hex
    rfl
  · intro e r hpre hex hps
    subst hpre
    subst hex
    show (match post r with
      | Except.error e2 => excToResult e2
      | Except.ok r2 => r2) = excToResult e
    have hps2 : post r = Except.error e := hps
    rw [hps2]
  · intro e
    cases e with
    | skill m => exact ⟨rfl, rfl⟩
    | other ty m => exact ⟨rfl, rfl⟩

theorem run_total_over_exceptions_witness :
    (runHandler behaviorRaises).success.isSome = true
      ∧ runHandler behaviorRaises = excToResult (Exc.other ("ValueError") ("boom")) := by
  have h := run_total_over_exceptions behaviorRaises
    (by intro r hr; exact Except.noConfusion hr)
    (by intro r r2 hr _; exact Except.noConfusion hr)
  exact ⟨h.1, h.2.2.1 (Exc.other ("ValueError") ("boom")) rfl rfl⟩

end Skills
